import Mathlib

/-!
# PanMatrix: RAID-over-remote-storage engine — verification of spec claims

Shallow embedding of the Go sources of the PanMatrix repository:

* `src/src/raid/engine.go`          — RAID engine (namespace `raid`)
* `src/src/scheduler/raid_scheduler.go` — adaptive scheduler (namespace `scheduler`)
* `src/src/metaddata/manager.go`    — metadata catalog (namespace `metadata`)

Bytes are modelled as `Nat` (values < 256 in practice; `Nat.xor` restricted to
such values stays below 256).  Remote storage is modelled as an association
list from `(driverName, storageID)` to the stored bytes.  Go `map` iteration
(whose order is unspecified) is modelled by an explicit `List String` of
driver names, passed as a parameter: one list value represents one concrete
iteration order.
-/

namespace PanMatrix

/-- Go slice expression `data[start:stop]` (with `stop ≤ len data` ensured by
the callers, as in the source). -/
def goSlice (data : List Nat) (start stop : Nat) : List Nat :=
  (data.drop start).take (stop - start)

/-- `int(math.Ceil(float64 a / float64 b))` for the integer ranges that occur
in the source (exact for these magnitudes). -/
def goCeilDiv (a b : Nat) : Nat := (a + b - 1) / b

/-- Insertion of `sortBy`: place `x` before the first element `y` with
`less x y`. -/
def insertBy {α : Type} (less : α → α → Bool) (x : α) : List α → List α
  | [] => [x]
  | y :: ys => if less x y then x :: y :: ys else y :: insertBy less x ys

/-- Comparison sort used to model Go's `sort.Slice`: for the strict total
comparators with distinct keys used below, any correct sort produces the same
unique order, so the choice of algorithm is immaterial. -/
def sortBy {α : Type} (less : α → α → Bool) : List α → List α
  | [] => []
  | x :: xs => insertBy less x (sortBy less xs)

/-- Go's simultaneous swap `l[i], l[j] = l[j], l[i]` on a string slice. -/
def swapAt (l : List String) (i j : Nat) : List String :=
  (l.set i (l.getD j "")).set j (l.getD i "")

namespace raid

/-- `RAIDLevel` constants from `engine.go` (`RAID0, RAID1, RAID5, RAID10`);
`NewRAIDController` rejects every other value, so the reachable levels form
this closed set. -/
inductive RAIDLevel where
  | raid0 | raid1 | raid5 | raid10
deriving DecidableEq, Repr

/-- The RAID controller state relevant to layout: the RAID level, one
iteration order of the `drivers` map, and the stripe size.
`stripeWidth = len(drivers)` as set by `NewRAIDController`. -/
structure RAIDController where
  level : RAIDLevel
  driverNames : List String
  stripeSize : Nat
deriving Repr

def RAIDController.stripeWidth (rc : RAIDController) : Nat :=
  rc.driverNames.length

/-- `selectDriverForStrip` from `engine.go`: round-robin over the driver-name
list obtained by ranging over the `drivers` map.  The list parameter models
one iteration of that map; Go leaves its order unspecified. -/
def selectDriverForStrip (driverNames : List String) (stripeWidth stripeIndex stripIndex : Nat) :
    String :=
  let totalIndex := stripeIndex * stripeWidth + stripIndex
  driverNames.getD (totalIndex % driverNames.length) ""

/-- `selectDriverByIndex` from `engine.go`: index into the driver-name list
obtained by ranging over the `drivers` map, reducing mod its length when the
index is out of range. -/
def selectDriverByIndex (driverNames : List String) (index : Nat) : String :=
  let i := if index ≥ driverNames.length then index % driverNames.length else index
  driverNames.getD i ""

/-- `createMirrorPairs` from `engine.go`: consecutive driver names are paired;
a trailing unpaired name is dropped. -/
def createMirrorPairs : List String → List (String × String)
  | a :: b :: rest => (a, b) :: createMirrorPairs rest
  | _ => []

/-- `splitDataForRAID5` from `engine.go`: split `data` into `W−1` strips of
`len(data) / (W−1)` bytes (integer division); the last strip takes all
remaining bytes. -/
def splitDataForRAID5 (stripeWidth : Nat) (data : List Nat) : List (List Nat) :=
  let stripSize := data.length / (stripeWidth - 1)
  (List.range (stripeWidth - 1)).map fun i =>
    let start := i * stripSize
    let stop := if i == stripeWidth - 2 then data.length else start + stripSize
    goSlice data start stop

/-- The inner XOR loop of `calculateParity`: `for i < len(strip) { parity[i] ^= strip[i] }`. -/
def xorInto : List Nat → List Nat → List Nat
  | p, [] => p
  | [], _ :: _ => []
  | p :: ps, s :: ss => (p ^^^ s) :: xorInto ps ss

/-- The `maxLen` computation of `calculateParity`. -/
def maxStripLen (strips : List (List Nat)) : Nat :=
  strips.foldl (fun m s => max m s.length) 0

/-- `calculateParity` from `engine.go`: a zero buffer of the longest strip's
length, XOR-accumulating every strip into its prefix. -/
def calculateParity (strips : List (List Nat)) : List Nat :=
  if strips.isEmpty then []
  else strips.foldl xorInto (List.replicate (maxStripLen strips) 0)

/-- The per-slot payload computed inside the `writeRAID5Stripe` goroutine:
the parity strip at `parityDriverIndex`, otherwise data strip
`i − (1 if i > parityDriverIndex)`; empty when that index is out of range
(such a slot is skipped: nothing is uploaded). -/
def raid5StripData (parityDriverIndex : Nat) (dataStrips : List (List Nat))
    (parityStrip : List Nat) (i : Nat) : List Nat :=
  if i == parityDriverIndex then parityStrip
  else
    let dataIndex := if i > parityDriverIndex then i - 1 else i
    if dataIndex < dataStrips.length then dataStrips.getD dataIndex [] else []

/-- `mergeRAID5Strips` from `engine.go`: concatenate, in slot order, every
non-nil strip other than the parity slot `stripeIndex mod len(strips)`. -/
def mergeRAID5Strips (strips : List (Option (List Nat))) (stripeIndex : Nat) : List Nat :=
  let parityIndex := stripeIndex % strips.length
  (strips.enum.filterMap fun p =>
    if p.1 ≠ parityIndex then p.2 else none).flatten

/-- `recoverRAID5Stripe` from `engine.go`: when the lost slot is the parity
slot, merge the data strips; a lost data slot returns the error
"数据块恢复功能待实现" (data-block recovery not implemented). -/
def recoverRAID5Stripe (strips : List (Option (List Nat))) (failedIndex stripeIndex : Nat) :
    Except String (List Nat) :=
  let parityIndex := stripeIndex % strips.length
  if failedIndex == parityIndex then
    .ok (mergeRAID5Strips strips stripeIndex)
  else
    .error "data block recovery not implemented"

/-- The decision logic of `readRAID5Stripe` from `engine.go`, applied to the
per-slot download results (`none` = the download of that slot failed):
no failures → merge; exactly one failure → `recoverRAID5Stripe`; otherwise an
unrecoverable error. -/
def readRAID5StripeFrom (strips : List (Option (List Nat))) (stripeIndex : Nat) :
    Except String (List Nat) :=
  let failedDrivers := strips.enum.filterMap fun p =>
    if p.2.isNone then some p.1 else none
  match failedDrivers with
  | [] => .ok (mergeRAID5Strips strips stripeIndex)
  | [f] => recoverRAID5Stripe strips f stripeIndex
  | _ => .error "multiple blocks lost, cannot recover"

/-- The success rule of `writeRAID1Stripe` from `engine.go`: one entry lands
on the error channel per failed upload; `successCount = len(drivers) − len(errCh)`;
the stripe write fails iff `successCount == 0`.  `uploadResults` lists the
per-driver upload outcomes (`true` = success). -/
def writeRAID1StripeResult (uploadResults : List Bool) : Except String Unit :=
  let errCount := (uploadResults.filter fun b => !b).length
  let successCount := uploadResults.length - errCount
  if successCount == 0 then .error "all drivers failed" else .ok ()

/-- The success rule of `writeRAID10Stripe` from `engine.go`: each pair issues
two uploads, every failed upload puts one entry on the error channel, and the
stripe write fails iff `len(errCh) > stripsPerPair` (the number of pairs).
`fails` tells which driver's upload fails. -/
def writeRAID10StripeResult (driverNames : List String) (fails : String → Bool) :
    Except String Unit :=
  let mirrorPairs := createMirrorPairs driverNames
  let stripsPerPair := mirrorPairs.length
  let errCount := (mirrorPairs.map fun p =>
    (if fails p.1 then 1 else 0) + (if fails p.2 then 1 else 0)).sum
  if errCount > stripsPerPair then .error "too many mirror pair failures" else .ok ()

/-- The spec's RAID 10 per-pair success rule ("At least one member of every
pair succeeds"), used to compare against the code's rule. -/
def raid10SpecRule (driverNames : List String) (fails : String → Bool) : Bool :=
  (createMirrorPairs driverNames).all fun p => !fails p.1 || !fails p.2

/-- The chunking of `writeRAID0Stripe` from `engine.go`:
`stripSize = ceil(len/W)`; strip `i` is `data[i·stripSize : min((i+1)·stripSize, len)]`,
skipped entirely (`none`) when `i·stripSize ≥ len`. -/
def raid0StripChunk (stripeWidth : Nat) (data : List Nat) (i : Nat) : Option (List Nat) :=
  let dataLen := data.length
  let stripSize := goCeilDiv dataLen stripeWidth
  let start := i * stripSize
  if start ≥ dataLen then none
  else
    let stop := min (start + stripSize) dataLen
    some (goSlice data start stop)

/-- All `W` chunk slots of a RAID 0 stripe, in slot order. -/
def raid0Chunks (stripeWidth : Nat) (data : List Nat) : List (Option (List Nat)) :=
  (List.range stripeWidth).map (raid0StripChunk stripeWidth data)

/-!
## End-to-end model of the write and read paths

The remote backends are modelled by a single `Store`: a map from
`(driverName, storageID)` to the uploaded bytes.  Per the driver contract
(§6 of the spec), `DownloadChunk` returns exactly the bytes previously
uploaded and errors when the id is absent.  This model covers the situation
of claim C1 — every driver operation succeeds — so `UploadChunk` always
succeeds and the per-level failure accounting (embedded separately above)
never fires. -/

/-- The collective state of all remote backends. -/
abbrev Store : Type := List ((String × String) × List Nat)

/-- A successful `UploadChunk` call on driver `driverName`. -/
def storePut (st : Store) (driverName storageID : String) (bytes : List Nat) : Store :=
  ((driverName, storageID), bytes) :: st

/-- `DownloadChunk` on driver `driverName`: the bytes previously uploaded
under `storageID`, or `none` (an error) when absent. -/
def storeGet (st : Store) (driverName storageID : String) : Option (List Nat) :=
  (st.find? fun e => e.1 == (driverName, storageID)).map (·.2)

/-- `generateFileID` from `engine.go`: `"file_" + fileName + "_" + UnixNano`;
the timestamp is passed explicitly. -/
def generateFileID (fileName : String) (unixNano : Nat) : String :=
  "file_" ++ fileName ++ "_" ++ toString unixNano

/-- `writeRAID0Stripe` from `engine.go` with every upload succeeding: upload
chunk `i` (when non-empty) to the round-robin driver under id
`fileID + "_s" + stripeIndex + "_st" + i`. -/
def writeRAID0Stripe (rc : RAIDController) (stripeIndex : Nat) (data : List Nat)
    (fileID : String) (st : Store) : Store :=
  (List.range rc.stripeWidth).foldl (fun st i =>
    match raid0StripChunk rc.stripeWidth data i with
    | none => st
    | some stripData =>
      let driverName := selectDriverForStrip rc.driverNames rc.stripeWidth stripeIndex i
      let storageID := fileID ++ "_s" ++ toString stripeIndex ++ "_st" ++ toString i
      storePut st driverName storageID stripData) st

/-- `writeRAID1Stripe` from `engine.go` with every upload succeeding: the
whole stripe payload is uploaded to every driver under
`fileID + "_s" + stripeIndex + "_" + driverName`. -/
def writeRAID1Stripe (rc : RAIDController) (stripeIndex : Nat) (data : List Nat)
    (fileID : String) (st : Store) : Store :=
  rc.driverNames.foldl (fun st name =>
    storePut st name (fileID ++ "_s" ++ toString stripeIndex ++ "_" ++ name) data) st

/-- `writeRAID5Stripe` from `engine.go` with every upload succeeding: data is
split into `W−1` strips, parity is their XOR, the parity slot rotates as
`stripeIndex mod W`, empty strips are skipped, and slot `i` goes to
`selectDriverByIndex i` under
`fileID + "_s" + stripeIndex + "_" + (data|parity) + "_" + driverName`. -/
def writeRAID5Stripe (rc : RAIDController) (stripeIndex : Nat) (data : List Nat)
    (fileID : String) (st : Store) : Store :=
  let dataStrips := splitDataForRAID5 rc.stripeWidth data
  let parityStrip := calculateParity dataStrips
  let parityDriverIndex := stripeIndex % rc.stripeWidth
  (List.range rc.stripeWidth).foldl (fun st i =>
    let stripData := raid5StripData parityDriverIndex dataStrips parityStrip i
    if stripData.length == 0 then st
    else
      let stripType := if i == parityDriverIndex then "parity" else "data"
      let driverName := selectDriverByIndex rc.driverNames i
      let storageID := fileID ++ "_s" ++ toString stripeIndex ++ "_" ++ stripType
        ++ "_" ++ driverName
      storePut st driverName storageID stripData) st

/-- `writeRAID10Stripe` from `engine.go` with every upload succeeding: the
payload is split into `len(pairs)` chunks of `len/pairs` bytes (the last
chunk takes the rest), each uploaded to both members of its mirror pair under
`fileID + "_s" + stripeIndex + "_pair" + pairIndex + "_" + driverName`. -/
def writeRAID10Stripe (rc : RAIDController) (stripeIndex : Nat) (data : List Nat)
    (fileID : String) (st : Store) : Store :=
  let mirrorPairs := createMirrorPairs rc.driverNames
  let stripsPerPair := mirrorPairs.length
  let stripSize := data.length / stripsPerPair
  mirrorPairs.enum.foldl (fun st p =>
    let pairIndex := p.1
    let start := pairIndex * stripSize
    let stop := if pairIndex == stripsPerPair - 1 then data.length else start + stripSize
    let pairData := goSlice data start stop
    let idOf := fun (name : String) =>
      fileID ++ "_s" ++ toString stripeIndex ++ "_pair" ++ toString pairIndex ++ "_" ++ name
    storePut (storePut st p.2.1 (idOf p.2.1) pairData) p.2.2 (idOf p.2.2) pairData) st

/-- `WriteFile` from `engine.go` with every upload succeeding: mint the file
id, cut the payload into `ceil(len/stripeSize)` stripes, and write each per
the RAID level.  Returns the file id and the resulting backend state. -/
def WriteFile (rc : RAIDController) (fileName : String) (unixNano : Nat)
    (data : List Nat) (st : Store) : String × Store :=
  let fileID := generateFileID fileName unixNano
  let fileSize := data.length
  let stripeCount := goCeilDiv fileSize rc.stripeSize
  let st := (List.range stripeCount).foldl (fun st stripeIndex =>
    let start := stripeIndex * rc.stripeSize
    let stop := min (start + rc.stripeSize) fileSize
    let stripeData := goSlice data start stop
    match rc.level with
    | .raid0 => writeRAID0Stripe rc stripeIndex stripeData fileID st
    | .raid1 => writeRAID1Stripe rc stripeIndex stripeData fileID st
    | .raid5 => writeRAID5Stripe rc stripeIndex stripeData fileID st
    | .raid10 => writeRAID10Stripe rc stripeIndex stripeData fileID st) st
  (fileID, st)

/-- `readRAID0Stripe` from `engine.go`: download all `W` strips from the
round-robin drivers; any failed download fails the stripe; otherwise the
non-nil strips are concatenated in slot order. -/
def readRAID0Stripe (rc : RAIDController) (st : Store) (stripeIndex : Nat)
    (fileID : String) : Except String (List Nat) :=
  let strips := (List.range rc.stripeWidth).map fun i =>
    let driverName := selectDriverForStrip rc.driverNames rc.stripeWidth stripeIndex i
    storeGet st driverName (fileID ++ "_s" ++ toString stripeIndex ++ "_st" ++ toString i)
  if strips.any Option.isNone then .error "error while reading stripe"
  else .ok (strips.filterMap id).flatten

/-- `readRAID5Stripe` from `engine.go`: download all `W` slots (labelling the
`stripeIndex mod W` slot "parity"), then apply the recovery decision logic. -/
def readRAID5Stripe (rc : RAIDController) (st : Store) (stripeIndex : Nat)
    (fileID : String) : Except String (List Nat) :=
  let parityDriverIndex := stripeIndex % rc.stripeWidth
  let strips := (List.range rc.stripeWidth).map fun i =>
    let stripType := if i == parityDriverIndex then "parity" else "data"
    let driverName := selectDriverByIndex rc.driverNames i
    storeGet st driverName
      (fileID ++ "_s" ++ toString stripeIndex ++ "_" ++ stripType ++ "_" ++ driverName)
  readRAID5StripeFrom strips stripeIndex

/-- Modelled from the spec: `readRAID1Stripe` is called by `ReadFile` but its
body is not among the repository's source files.  Spec §4.3 read table for
RAID 1 — "Return the payload from any successful block", unrecoverable iff
all blocks missing — with the storage-id convention of §6. -/
def readRAID1Stripe (rc : RAIDController) (st : Store) (stripeIndex : Nat)
    (fileID : String) : Except String (List Nat) :=
  let results := rc.driverNames.filterMap fun name =>
    storeGet st name (fileID ++ "_s" ++ toString stripeIndex ++ "_" ++ name)
  match results with
  | [] => .error "all blocks missing"
  | d :: _ => .ok d

/-- Modelled from the spec: `readRAID10Stripe` is called by `ReadFile` but its
body is not among the repository's source files.  Spec §4.3 read table for
RAID 10 — "For each pair, pick any surviving member's block", unrecoverable
iff both members of any pair are missing — with the storage-id convention of
§6. -/
def readRAID10Stripe (rc : RAIDController) (st : Store) (stripeIndex : Nat)
    (fileID : String) : Except String (List Nat) :=
  let chunks := (createMirrorPairs rc.driverNames).enum.map fun p =>
    let idOf := fun (name : String) =>
      fileID ++ "_s" ++ toString stripeIndex ++ "_pair" ++ toString p.1 ++ "_" ++ name
    match storeGet st p.2.1 (idOf p.2.1) with
    | some d => some d
    | none => storeGet st p.2.2 (idOf p.2.2)
  if chunks.any Option.isNone then .error "both members of a pair missing"
  else .ok (chunks.filterMap id).flatten

/-- `ReadFile` from `engine.go`.  The source hard-codes `stripeCount := 2`
("模拟：假设我们知道文件由2个条带组成" — simulate: assume the file has 2
stripes) instead of consulting the metadata; stripes `0` and `1` are read and
concatenated, and any per-stripe error fails the whole read. -/
def ReadFile (rc : RAIDController) (st : Store) (fileID : String) :
    Except String (List Nat) :=
  let stripeCount := 2
  (List.range stripeCount).foldlM (fun acc stripeIndex =>
    let res := match rc.level with
      | .raid0 => readRAID0Stripe rc st stripeIndex fileID
      | .raid1 => readRAID1Stripe rc st stripeIndex fileID
      | .raid5 => readRAID5Stripe rc st stripeIndex fileID
      | .raid10 => readRAID10Stripe rc st stripeIndex fileID
    match res with
    | .error e => .error ("failed to read stripe " ++ toString stripeIndex ++ ": " ++ e)
    | .ok d => .ok (acc ++ d)) ([] : List Nat)

end raid

namespace scheduler

/-- `DriverMetrics` from `raid_scheduler.go`.  `avgLatencyNs` models the
`time.Duration` field `AvgLatency` in nanoseconds; `successRate` models the
`float64` field (the update rule keeps it an exact multiple of `1/100`, so ℚ
is a faithful carrier); `lastErrorTime` is an absolute instant in
nanoseconds.  The `Name` field of the Go struct is `name` here. -/
structure DriverMetrics where
  name : String
  avgLatencyNs : Nat
  successRate : ℚ
  currentLoad : Nat
  availableSpace : Int
  lastErrorTime : Nat
deriving DecidableEq, Repr

/-- `5 * time.Minute` in nanoseconds. -/
def fiveMinutes : Nat := 5 * 60 * 1000000000

/-- `10 * 1024 * 1024 * 1024` bytes. -/
def tenGiB : Int := 10 * 1024 * 1024 * 1024

/-- The `rs.metrics[driverName]` lookup: the scheduler's metric table is
modelled as a list of entries (one iteration order of the Go map). -/
def findMetric (metrics : List DriverMetrics) (driverName : String) :
    Option DriverMetrics :=
  metrics.find? fun m => m.name == driverName

/-- Metric lookup with the zero metric as default; the sort comparators only
ever look up names produced by `getAvailableDrivers`, for which the lookup
succeeds, so the default is never reached from `SelectDriversForStripe`. -/
def getMetric (metrics : List DriverMetrics) (driverName : String) : DriverMetrics :=
  (findMetric metrics driverName).getD ⟨driverName, 0, 0, 0, 0, 0⟩

/-- The score computation of `calculateScore` on a metric record:
`0.3/(latency_ms+1) + 0.4·success_rate + 0.2/(load+1)`, plus
`0.1·min(space,10GiB)/10GiB` when `availableSpace > 0`.
`AvgLatency.Milliseconds()` truncates nanoseconds to milliseconds. -/
def scoreOf (m : DriverMetrics) : ℚ :=
  let latencyScore : ℚ := 1 / ((m.avgLatencyNs / 1000000 : Nat) + 1 : ℚ)
  let base := latencyScore * (3/10) + m.successRate * (4/10)
    + (1 / ((m.currentLoad : ℚ) + 1)) * (2/10)
  if m.availableSpace > 0 then
    base + ((min m.availableSpace tenGiB : Int) : ℚ) / (tenGiB : ℚ) * (1/10)
  else base

/-- `calculateScore` from `raid_scheduler.go`: score of the looked-up metric,
`0` when the driver has no metric entry. -/
def calculateScore (metrics : List DriverMetrics) (driverName : String) : ℚ :=
  match findMetric metrics driverName with
  | none => 0
  | some m => scoreOf m

/-- The comparator of `sortDriversByPerformance`: ascending raw latency, ties
broken by descending success rate. -/
def perfLess (metrics : List DriverMetrics) (a b : String) : Bool :=
  let mi := getMetric metrics a
  let mj := getMetric metrics b
  if mi.avgLatencyNs ≠ mj.avgLatencyNs then mi.avgLatencyNs < mj.avgLatencyNs
  else mi.successRate > mj.successRate

/-- The comparator of `sortDriversByReliability`: descending success rate,
ties broken by earlier last-error instant. -/
def reliabilityLess (metrics : List DriverMetrics) (a b : String) : Bool :=
  let mi := getMetric metrics a
  let mj := getMetric metrics b
  if mi.successRate ≠ mj.successRate then mi.successRate > mj.successRate
  else mi.lastErrorTime < mj.lastErrorTime

/-- The comparator of `sortDriversByScore`: descending composite score. -/
def scoreLess (metrics : List DriverMetrics) (a b : String) : Bool :=
  calculateScore metrics a > calculateScore metrics b

/-- `sortDriversByPerformance` from `raid_scheduler.go`. -/
def sortDriversByPerformance (metrics : List DriverMetrics) (drivers : List String) :
    List String :=
  sortBy (perfLess metrics) drivers

/-- `sortDriversByReliability` from `raid_scheduler.go`. -/
def sortDriversByReliability (metrics : List DriverMetrics) (drivers : List String) :
    List String :=
  sortBy (reliabilityLess metrics) drivers

/-- `sortDriversByScore` from `raid_scheduler.go`. -/
def sortDriversByScore (metrics : List DriverMetrics) (drivers : List String) :
    List String :=
  sortBy (scoreLess metrics) drivers

/-- `getAvailableDrivers` from `raid_scheduler.go`: a driver is kept iff it is
not excluded, its success rate exceeds `0.8`, and
`time.Since(LastErrorTime) > 5 min`.  The metric table is traversed in the
list's order (one iteration of the Go map); `now − lastErrorTime` truncates
at zero exactly as a negative `time.Since` also fails the `> 5 min` test. -/
def getAvailableDrivers (metrics : List DriverMetrics) (excludeDrivers : List String)
    (now : Nat) : List String :=
  metrics.filterMap fun m =>
    if m.name ∈ excludeDrivers then none
    else if (8 : ℚ)/10 < m.successRate ∧ fiveMinutes < now - m.lastErrorTime then
      some m.name
    else none

/-- `selectForRAID0` from `raid_scheduler.go`: performance-sorted, first
`min(4, n)`. -/
def selectForRAID0 (metrics : List DriverMetrics) (availableDrivers : List String) :
    List String :=
  let sorted := sortDriversByPerformance metrics availableDrivers
  sorted.take (min 4 sorted.length)

/-- `selectForRAID1` from `raid_scheduler.go`: reliability-sorted, first
`min(2, n)`. -/
def selectForRAID1 (metrics : List DriverMetrics) (availableDrivers : List String) :
    List String :=
  let sorted := sortDriversByReliability metrics availableDrivers
  sorted.take (min 2 sorted.length)

/-- `selectForRAID5` from `raid_scheduler.go`: with fewer than 3 available
drivers all of them are returned; otherwise the first `min(5, n)` of the
score-sorted list are taken and the driver at position
`stripeIndex mod len(selected)` — the parity carrier for this stripe — is
swapped with the last position. -/
def selectForRAID5 (metrics : List DriverMetrics) (availableDrivers : List String)
    (stripeIndex : Nat) : List String :=
  if availableDrivers.length < 3 then availableDrivers
  else
    let sorted := sortDriversByScore metrics availableDrivers
    let count := min 5 sorted.length
    let selected := sorted.take count
    let parityIndex := stripeIndex % selected.length
    if parityIndex < selected.length - 1 then
      swapAt selected parityIndex (selected.length - 1)
    else selected

/-- `selectForRAID10` from `raid_scheduler.go`: with fewer than 4 available
drivers all of them are returned; otherwise the first `min(8, n)` of the
reliability-sorted list, rounded down to an even count. -/
def selectForRAID10 (metrics : List DriverMetrics) (availableDrivers : List String) :
    List String :=
  if availableDrivers.length < 4 then availableDrivers
  else
    let sorted := sortDriversByReliability metrics availableDrivers
    let count := min 8 sorted.length
    let count := if count % 2 ≠ 0 then count - 1 else count
    sorted.take count

/-- `SelectDriversForStripe` from `raid_scheduler.go`: filter the eligible
drivers, then dispatch on the RAID level (any unknown level takes the first
`min(4, n)` available). -/
def SelectDriversForStripe (metrics : List DriverMetrics) (raidLevel stripeIndex : Nat)
    (excludeDrivers : List String) (now : Nat) : List String :=
  let availableDrivers := getAvailableDrivers metrics excludeDrivers now
  match raidLevel with
  | 0 => selectForRAID0 metrics availableDrivers
  | 1 => selectForRAID1 metrics availableDrivers
  | 5 => selectForRAID5 metrics availableDrivers stripeIndex
  | 10 => selectForRAID10 metrics availableDrivers
  | _ => availableDrivers.take (min 4 availableDrivers.length)

/-- The driver designated as parity carrier for stripe `stripeIndex` inside
`selectForRAID5`: position `stripeIndex mod len(selected)` of the
score-sorted selection, before the swap moves it to the end. -/
def raid5ParityCarrier (metrics : List DriverMetrics) (excludeDrivers : List String)
    (now stripeIndex : Nat) : String :=
  let sorted := sortDriversByScore metrics (getAvailableDrivers metrics excludeDrivers now)
  let selected := sorted.take (min 5 sorted.length)
  selected.getD (stripeIndex % selected.length) ""

end scheduler

namespace metadata

/-- `StripMetadata` from `manager.go` (timestamp and checksum fields, which
play no role in the claims, are omitted). -/
structure StripMetadata where
  stripIndex : Nat
  driverName : String
  storageID : String
  stripSize : Nat
  isParity : Bool
deriving DecidableEq, Repr

/-- `StripeMetadata` from `manager.go`. -/
structure StripeMetadata where
  stripeIndex : Nat
  strips : List StripMetadata
  parityStrip : Option StripMetadata
deriving DecidableEq, Repr

/-- `FileMetadata` from `manager.go` (timestamps, hash and the driver-health
map, which play no role in the claims, are omitted). -/
structure FileMetadata where
  fileID : String
  fileName : String
  fileSize : Nat
  raidLevel : Nat
  stripeSize : Nat
  stripeCount : Nat
  stripes : List StripeMetadata
deriving DecidableEq, Repr

/-- The two failure modes of `GetFileMetadata`: the backing file does not
exist ("文件不存在"), or it exists but `json.Unmarshal` fails
("解析元数据失败"). -/
inductive GetError where
  | notFound (fileID : String)
  | parseFailed (msg : String)
deriving DecidableEq, Repr

/-- The in-memory cache `mm.metadata`, as an association list. -/
abbrev MetaCache : Type := List (String × FileMetadata)

/-- The on-disk record directory: for a file id, `none` when no record file
exists, `some (.error msg)` when the record exists but fails to decode, and
`some (.ok fm)` when it decodes to `fm`.  (A medium read error other than
non-existence, which the Go code reports separately, plays no role in the
claims and is not modelled.) -/
abbrev MetaStore : Type := String → Option (Except String FileMetadata)

/-- `GetFileMetadata` from `manager.go`: return the cached record on a cache
hit; otherwise load from the store — `NotFound` when absent, a parse error
when decoding fails — and cache and return the decoded record.  The decoded
record is returned as-is: no invariant validation is performed.  The updated
cache is returned alongside the record. -/
def GetFileMetadata (cache : MetaCache) (store : MetaStore) (fileID : String) :
    Except GetError (FileMetadata × MetaCache) :=
  match cache.find? (fun e => e.1 == fileID) with
  | some e => .ok (e.2, cache)
  | none =>
    match store fileID with
    | none => .error (.notFound fileID)
    | some (.error msg) => .error (.parseFailed msg)
    | some (.ok fm) => .ok (fm, (fileID, fm) :: cache)

/-- Modelled from the spec: the invariant validation that `Get` is claimed to
perform (spec §4.1 — "validates the decoded structure (dense indices, role
consistency)"; §3 invariants — block indices within a stripe are dense
`0..N−1`, and exactly one block has role `Parity` iff the RAID level is 5).
Used only to compare the claim against the code's actual behavior. -/
def validMetadataStructure (fm : FileMetadata) : Bool :=
  fm.stripes.all fun stripe =>
    (stripe.strips.map (·.stripIndex) == List.range stripe.strips.length) &&
    (((stripe.strips.filter (·.isParity)).length == 1) == (fm.raidLevel == 5))

end metadata

/-!
## Concrete inputs used by counterexamples and witnesses
-/

/-- A RAID 0 controller over two drivers with stripe size 2 (one map-iteration
order fixed for both the write and the read, the most favorable case for the
round-trip claim). -/
def rcC1 : raid.RAIDController := ⟨.raid0, ["d0", "d1"], 2⟩

/-- Five healthy drivers with pairwise distinct composite scores (latencies
0,1,2,3,4 ms; success rate 1; no load; no space data; never errored). -/
def ml5 : List scheduler.DriverMetrics :=
  [⟨"a", 0, 1, 0, 0, 0⟩, ⟨"b", 1000000, 1, 0, 0, 0⟩, ⟨"c", 2000000, 1, 0, 0, 0⟩,
   ⟨"d", 3000000, 1, 0, 0, 0⟩, ⟨"e", 4000000, 1, 0, 0, 0⟩]

/-- Only two healthy drivers. -/
def ml2 : List scheduler.DriverMetrics :=
  [⟨"a", 0, 1, 0, 0, 0⟩, ⟨"b", 1000000, 1, 0, 0, 0⟩]

/-- An instant comfortably more than five minutes after time zero. -/
def tNow : Nat := 3 * scheduler.fiveMinutes

/-- A decoded metadata record violating the §3 invariants: the strip indices
of stripe 0 are 0 and 2 — not dense. -/
def fmBad : metadata.FileMetadata :=
  { fileID := "f1", fileName := "n", fileSize := 4, raidLevel := 0, stripeSize := 4,
    stripeCount := 1,
    stripes := [⟨0, [⟨0, "d0", "id0", 2, false⟩, ⟨2, "d1", "id1", 2, false⟩], none⟩] }

/-- A record directory holding exactly the (invalid) record of file `f1`. -/
def storeBad : metadata.MetaStore :=
  fun fid => if fid == "f1" then some (.ok fmBad) else none

/-!
## Helper lemmas

The Batteries rational-number operations are `irreducible` by default, which
blocks `decide` from evaluating the scheduler's score arithmetic on concrete
inputs; reducibility is restored locally for the proofs below (the kernel
ignores reducibility attributes, so nothing about the trusted checking
changes). -/

attribute [local semireducible] Rat.mul Rat.add Rat.sub Rat.inv

theorem goSlice_length (data : List Nat) (start stop : Nat) (h : stop ≤ data.length) :
    (goSlice data start stop).length = stop - start := by
  simp only [goSlice, List.length_take, List.length_drop]
  omega

theorem mem_insertBy {α : Type} {less : α → α → Bool} {x a : α} {l : List α} :
    a ∈ insertBy less x l ↔ a = x ∨ a ∈ l := by
  induction l with
  | nil => simp [insertBy]
  | cons y ys ih =>
    cases hb : less x y
    · simp only [insertBy, hb, Bool.false_eq_true, if_false, List.mem_cons, ih]
      tauto
    · simp [insertBy, hb]

theorem mem_sortBy {α : Type} {less : α → α → Bool} {a : α} {l : List α} :
    a ∈ sortBy less l ↔ a ∈ l := by
  induction l with
  | nil => simp [sortBy]
  | cons x xs ih => simp [sortBy, mem_insertBy, ih]

theorem length_insertBy {α : Type} (less : α → α → Bool) (x : α) (l : List α) :
    (insertBy less x l).length = l.length + 1 := by
  induction l with
  | nil => rfl
  | cons y ys ih => cases hb : less x y <;> simp [insertBy, hb, ih]

theorem length_sortBy {α : Type} (less : α → α → Bool) (l : List α) :
    (sortBy less l).length = l.length := by
  induction l with
  | nil => rfl
  | cons x xs ih => simp [sortBy, length_insertBy, ih]

theorem length_swapAt (l : List String) (i j : Nat) :
    (swapAt l i j).length = l.length := by
  simp [swapAt]

theorem getD_mem_of_lt {l : List String} {i : Nat} (hi : i < l.length) :
    l.getD i "" ∈ l := by
  rw [List.getD_eq_getElem?_getD, List.getElem?_eq_getElem hi, Option.getD_some]
  exact List.getElem_mem hi

theorem getD_swapAt_j (l : List String) {i j : Nat}
    (hj : j < l.length) : (swapAt l i j).getD j "" = l.getD i "" := by
  have hj2 : j < ((l.set i (l.getD j "")).set j (l.getD i "")).length := by
    simpa using hj
  rw [swapAt, List.getD_eq_getElem?_getD, List.getElem?_eq_getElem hj2,
    Option.getD_some, List.getElem_set_self]

theorem mem_of_mem_swapAt {l : List String} {i j : Nat} {a : String}
    (hi : i < l.length) (hj : j < l.length) (h : a ∈ swapAt l i j) : a ∈ l := by
  rw [swapAt] at h
  rcases List.mem_or_eq_of_mem_set h with h1 | rfl
  · rcases List.mem_or_eq_of_mem_set h1 with h2 | rfl
    · exact h2
    · exact getD_mem_of_lt hj
  · exact getD_mem_of_lt hi

theorem xorInto_length {p s : List Nat} (h : s.length ≤ p.length) :
    (raid.xorInto p s).length = p.length := by
  induction p generalizing s with
  | nil =>
    cases s with
    | nil => rfl
    | cons b bs => simp at h
  | cons a ps ih =>
    cases s with
    | nil => rfl
    | cons b bs =>
      simp only [raid.xorInto, List.length_cons]
      rw [ih (by simpa using h)]

theorem xorInto_getD {p s : List Nat} (h : s.length ≤ p.length) (i : Nat) :
    (raid.xorInto p s).getD i 0 = (p.getD i 0) ^^^ (s.getD i 0) := by
  induction p generalizing s i with
  | nil =>
    cases s with
    | nil => simp [raid.xorInto]
    | cons b bs => simp at h
  | cons a ps ih =>
    cases s with
    | nil => simp [raid.xorInto]
    | cons b bs =>
      cases i with
      | zero => simp [raid.xorInto]
      | succ n => simpa [raid.xorInto] using ih (by simpa using h) n

theorem foldl_xorInto_getD (strips : List (List Nat)) (acc : List Nat)
    (h : ∀ s ∈ strips, s.length ≤ acc.length) :
    (strips.foldl raid.xorInto acc).length = acc.length ∧
    ∀ i, (strips.foldl raid.xorInto acc).getD i 0 =
      strips.foldl (fun a s => a ^^^ s.getD i 0) (acc.getD i 0) := by
  induction strips generalizing acc with
  | nil => exact ⟨rfl, fun _ => rfl⟩
  | cons s ss ih =>
    have hs : s.length ≤ acc.length := h s (List.mem_cons_self s ss)
    have hlen := xorInto_length hs
    obtain ⟨l1, l2⟩ := ih (raid.xorInto acc s)
      (fun t ht => hlen ▸ h t (List.mem_cons_of_mem s ht))
    refine ⟨by simpa only [List.foldl_cons, hlen] using l1, fun i => ?_⟩
    simp only [List.foldl_cons]
    rw [l2 i, xorInto_getD hs i]

theorem le_foldl_maxLen (strips : List (List Nat)) (acc : Nat) :
    acc ≤ strips.foldl (fun m s => max m s.length) acc ∧
    ∀ s ∈ strips, s.length ≤ strips.foldl (fun m s => max m s.length) acc := by
  induction strips generalizing acc with
  | nil => exact ⟨Nat.le_refl _, by simp⟩
  | cons t ts ih =>
    simp only [List.foldl_cons]
    obtain ⟨h1, h2⟩ := ih (max acc t.length)
    refine ⟨Nat.le_trans (Nat.le_max_left _ _) h1, fun s hs => ?_⟩
    rcases List.mem_cons.mp hs with rfl | hs
    · exact Nat.le_trans (Nat.le_max_right _ _) h1
    · exact h2 s hs

theorem foldl_maxLen_attained (strips : List (List Nat)) (acc : Nat) :
    strips.foldl (fun m s => max m s.length) acc = acc ∨
    ∃ s ∈ strips, strips.foldl (fun m s => max m s.length) acc = s.length := by
  induction strips generalizing acc with
  | nil => exact .inl rfl
  | cons t ts ih =>
    simp only [List.foldl_cons]
    rcases ih (max acc t.length) with h | ⟨s, hs, h⟩
    · rcases Nat.le_total t.length acc with hle | hle
      · exact .inl (by rw [h, Nat.max_eq_left hle])
      · exact .inr ⟨t, List.mem_cons_self _ _, by rw [h, Nat.max_eq_right hle]⟩
    · exact .inr ⟨s, List.mem_cons_of_mem _ hs, h⟩

theorem getD_replicate_zero (n i : Nat) :
    (List.replicate n (0 : Nat)).getD i 0 = 0 := by
  induction n generalizing i with
  | zero => rfl
  | succ m ih =>
    cases i with
    | zero => rfl
    | succ k => simp only [List.replicate_succ, List.getD_cons_succ, ih k]

theorem raid1_count_true (rs : List Bool) :
    rs.length - (rs.filter fun b => !b).length = rs.count true := by
  induction rs with
  | nil => rfl
  | cons b bs ih =>
    have hle := List.length_filter_le (fun b => !b) bs
    cases b <;>
      simp only [List.filter_cons, List.count_cons, Bool.not_false, Bool.not_true,
        if_true, if_false, List.length_cons, beq_iff_eq, Bool.false_eq_true] <;>
      omega

theorem raid0Chunks_sizes_4096 (data : List Nat) (h : data.length = 4096) :
    (raid.raid0Chunks 5 data).map (Option.map List.length) =
      [some 820, some 820, some 820, some 820, some 816] := by
  have h5 : List.range 5 = [0, 1, 2, 3, 4] := rfl
  simp only [raid.raid0Chunks, raid.raid0StripChunk, goCeilDiv, goSlice, h, h5,
    List.map_cons, List.map_nil, List.length_take, List.length_drop, Option.map_some]
  norm_num
  omega

/-!
## The claims
-/

/-- C1: the round-trip claim fails on the code: `ReadFile` hard-codes a
stripe count of 2 (engine.go line 146), so reading back a one-stripe RAID 0
file — written over two drivers with every driver operation succeeding, both
chunks landing in the store — fails on the nonexistent stripe 1 instead of
returning the original bytes. -/
theorem c1_roundtrip_fails_on_hardcoded_stripe_count :
    raid.storeGet (raid.WriteFile rcC1 "f" 0 [1, 2] []).2 "d0" "file_f_0_s0_st0" =
      some [1] ∧
    raid.storeGet (raid.WriteFile rcC1 "f" 0 [1, 2] []).2 "d1" "file_f_0_s0_st1" =
      some [2] ∧
    raid.ReadFile rcC1 (raid.WriteFile rcC1 "f" 0 [1, 2] []).2
        (raid.WriteFile rcC1 "f" 0 [1, 2] []).1 =
      .error "failed to read stripe 1: error while reading stripe" ∧
    (Except.error "failed to read stripe 1: error while reading stripe" ≠
      (Except.ok [1, 2] : Except String (List Nat))) :=
  ⟨rfl, rfl, rfl, fun h => Except.noConfusion h⟩

/-- C2: a RAID 5 stripe with exactly one Data block missing is NOT recovered:
`recoverRAID5Stripe` returns the not-implemented error (engine.go line 583),
so `readRAID5Stripe` fails, even though the XOR recovery is possible — the
parity block XORed into the surviving data block yields the missing block.
Concrete stripe: spec §8 scenario 3, W = 3, payload 1..8, parity slot 0. -/
theorem c2_raid5_lost_data_block_not_recovered :
    raid.readRAID5StripeFrom [some [4, 4, 4, 12], none, some [5, 6, 7, 8]] 0 =
      .error "data block recovery not implemented" ∧
    raid.calculateParity [[1, 2, 3, 4], [5, 6, 7, 8]] = [4, 4, 4, 12] ∧
    raid.xorInto [4, 4, 4, 12] [5, 6, 7, 8] = [1, 2, 3, 4] ∧
    raid.mergeRAID5Strips [some [4, 4, 4, 12], some [1, 2, 3, 4], some [5, 6, 7, 8]] 0 =
      [1, 2, 3, 4, 5, 6, 7, 8] :=
  ⟨rfl, rfl, rfl, rfl⟩

/-- C3: `calculateParity strips` has the length of the longest strip (it
bounds every strip's length and is attained), and its i-th byte is the XOR of
the i-th bytes of all strips that have one — strips shorter than i contribute
`getD i 0 = 0`, the XOR identity, which is exactly zero-padding to the
longest length.  `writeRAID5Stripe` stores precisely
`calculateParity (splitDataForRAID5 W data)` in the parity slot. -/
theorem c3_parity_is_xor_of_zero_padded_strips (strips : List (List Nat)) :
    (raid.calculateParity strips).length = raid.maxStripLen strips ∧
    (∀ s ∈ strips, s.length ≤ raid.maxStripLen strips) ∧
    (strips ≠ [] → ∃ s ∈ strips, s.length = raid.maxStripLen strips) ∧
    (∀ i, (raid.calculateParity strips).getD i 0 =
      strips.foldl (fun acc s => acc ^^^ s.getD i 0) 0) := by
  rcases strips with _ | ⟨t, ts⟩
  · exact ⟨rfl, by simp, by simp, fun _ => rfl⟩
  · have hb : ∀ s ∈ t :: ts,
        s.length ≤ (List.replicate (raid.maxStripLen (t :: ts)) 0).length := by
      intro s hs
      rw [List.length_replicate]
      exact (le_foldl_maxLen (t :: ts) 0).2 s hs
    obtain ⟨l1, l2⟩ := foldl_xorInto_getD (t :: ts) _ hb
    have hcp : raid.calculateParity (t :: ts) =
        (t :: ts).foldl raid.xorInto
          (List.replicate (raid.maxStripLen (t :: ts)) 0) := by
      rw [raid.calculateParity]
      simp
    refine ⟨?_, (le_foldl_maxLen (t :: ts) 0).2, fun _ => ?_, fun i => ?_⟩
    · rw [hcp, l1, List.length_replicate]
    · rcases foldl_maxLen_attained (t :: ts) 0 with h | h
      · have ht : t.length ≤ raid.maxStripLen (t :: ts) :=
          (le_foldl_maxLen _ 0).2 t (List.mem_cons_self _ _)
        refine ⟨t, List.mem_cons_self _ _, ?_⟩
        rw [raid.maxStripLen] at *
        omega
      · obtain ⟨s, hs, hh⟩ := h
        exact ⟨s, hs, hh.symm⟩
    · rw [hcp, l2 i, getD_replicate_zero]

/-- C4: the RAID 1 stripe-write success rule: `writeRAID1Stripe` computes
`successCount = len(drivers) − len(errCh)` — the number of successful
uploads — and fails iff it is zero, so the write succeeds iff at least one
`UploadChunk` succeeded and errors exactly when every upload failed. -/
theorem c4_raid1_write_ok_iff_some_upload_succeeds (uploadResults : List Bool) :
    (raid.writeRAID1StripeResult uploadResults = .ok () ↔ true ∈ uploadResults) ∧
    (raid.writeRAID1StripeResult uploadResults = .error "all drivers failed" ↔
      true ∉ uploadResults) := by
  rw [raid.writeRAID1StripeResult]
  simp only [raid1_count_true uploadResults]
  by_cases h : true ∈ uploadResults
  · have hc : uploadResults.count true ≠ 0 := fun hc => (List.count_eq_zero.mp hc) h
    rw [if_neg (by simpa using hc)]
    exact ⟨⟨fun _ => h, fun _ => rfl⟩,
      ⟨fun he => Except.noConfusion he, fun hn => absurd h hn⟩⟩
  · rw [if_pos (by simpa using List.count_eq_zero.mpr h)]
    exact ⟨⟨fun he => Except.noConfusion he, fun ht => absurd ht h⟩,
      ⟨fun _ => h, fun _ => rfl⟩⟩

/-- C5: the RAID 10 write-success rule of the code is NOT the per-pair rule:
with 4 drivers forming pairs (d0,d1) and (d2,d3), failing both uploads of
pair 0 produces 2 errors, which is not more than the 2 pairs, so
`writeRAID10Stripe` returns success — although pair 0 retains no copy and
the spec's rule ("at least one member of every pair succeeds", also stated
by the code's own comment) is violated. -/
theorem c5_raid10_write_accepts_fully_failed_pair :
    raid.createMirrorPairs ["d0", "d1", "d2", "d3"] = [("d0", "d1"), ("d2", "d3")] ∧
    raid.writeRAID10StripeResult ["d0", "d1", "d2", "d3"]
        (fun n => n == "d0" || n == "d1") = .ok () ∧
    raid.raid10SpecRule ["d0", "d1", "d2", "d3"]
        (fun n => n == "d0" || n == "d1") = false :=
  ⟨rfl, rfl, rfl⟩

/-- C6 (counterexample): for 5 drivers and a 4096-byte stripe the RAID 0
chunk sizes are not five equal chunks of 820 bytes — 5·820 = 4100 ≠ 4096;
the fifth chunk holds only the remaining 816 bytes. -/
theorem c6_counterexample_equal_chunks :
    (raid.raid0Chunks 5 (List.replicate 4096 0)).map (Option.map List.length) ≠
      [some 820, some 820, some 820, some 820, some 820] := by
  rw [raid0Chunks_sizes_4096 (List.replicate 4096 0) (List.length_replicate 4096 0)]
  decide

/-- C6 (amended): `writeRAID0Stripe` splits a stripe into chunks of
`ceil(len/W)` bytes, the last chunk holding only what remains (it is smaller,
not larger, than the others); for 5 drivers and a 4096-byte stripe the chunk
sizes are 820, 820, 820, 820 and 816. -/
theorem c6_amended_raid0_chunk_sizes (data : List Nat) (h : data.length = 4096) :
    (raid.raid0Chunks 5 data).map (Option.map List.length) =
      [some 820, some 820, some 820, some 820, some 816] :=
  raid0Chunks_sizes_4096 data h

/-- C6 (witness): the amended chunk-size theorem applied to the concrete
4096-byte payload of spec §8 scenario 1. -/
theorem c6_amended_raid0_chunk_sizes_witness :
    (List.replicate 4096 (0 : Nat)).length = 4096 ∧
    (raid.raid0Chunks 5 (List.replicate 4096 0)).map (Option.map List.length) =
      [some 820, some 820, some 820, some 820, some 816] :=
  ⟨List.length_replicate 4096 0,
   c6_amended_raid0_chunk_sizes (List.replicate 4096 0) (List.length_replicate 4096 0)⟩

theorem mem_take_sortBy {α : Type} {less : α → α → Bool} {l : List α} {n : Nat} {a : α}
    (h : a ∈ (sortBy less l).take n) : a ∈ l :=
  mem_sortBy.mp (List.take_subset _ _ h)

theorem mem_selectForRAID0 {metrics : List scheduler.DriverMetrics}
    {av : List String} {d : String}
    (h : d ∈ scheduler.selectForRAID0 metrics av) : d ∈ av := by
  simp only [scheduler.selectForRAID0, scheduler.sortDriversByPerformance] at h
  exact mem_take_sortBy h

theorem mem_selectForRAID1 {metrics : List scheduler.DriverMetrics}
    {av : List String} {d : String}
    (h : d ∈ scheduler.selectForRAID1 metrics av) : d ∈ av := by
  simp only [scheduler.selectForRAID1, scheduler.sortDriversByReliability] at h
  exact mem_take_sortBy h

theorem mem_selectForRAID5 {metrics : List scheduler.DriverMetrics}
    {av : List String} {s : Nat} {d : String}
    (h : d ∈ scheduler.selectForRAID5 metrics av s) : d ∈ av := by
  simp only [scheduler.selectForRAID5, scheduler.sortDriversByScore] at h
  split at h
  · exact h
  · split at h
    case isTrue hc =>
      refine mem_take_sortBy (mem_of_mem_swapAt ?_ ?_ h) <;> omega
    case isFalse hc => exact mem_take_sortBy h

theorem mem_selectForRAID10 {metrics : List scheduler.DriverMetrics}
    {av : List String} {d : String}
    (h : d ∈ scheduler.selectForRAID10 metrics av) : d ∈ av := by
  simp only [scheduler.selectForRAID10, scheduler.sortDriversByReliability] at h
  split at h
  · exact h
  · exact mem_take_sortBy h

theorem select_subset_available (metrics : List scheduler.DriverMetrics)
    (raidLevel stripeIndex : Nat) (excl : List String) (now : Nat) (d : String)
    (h : d ∈ scheduler.SelectDriversForStripe metrics raidLevel stripeIndex excl now) :
    d ∈ scheduler.getAvailableDrivers metrics excl now := by
  unfold scheduler.SelectDriversForStripe at h
  split at h
  · exact mem_selectForRAID0 h
  · exact mem_selectForRAID1 h
  · exact mem_selectForRAID5 h
  · exact mem_selectForRAID10 h
  · exact List.take_subset _ _ h

theorem mem_getAvailableDrivers_iff {metrics : List scheduler.DriverMetrics}
    {excl : List String} {now : Nat} {d : String} :
    d ∈ scheduler.getAvailableDrivers metrics excl now ↔
      ∃ m ∈ metrics, m.name = d ∧ d ∉ excl ∧
        (8 : ℚ)/10 < m.successRate ∧
        scheduler.fiveMinutes < now - m.lastErrorTime := by
  unfold scheduler.getAvailableDrivers
  rw [List.mem_filterMap]
  constructor
  · rintro ⟨m, hm, hf⟩
    by_cases h1 : m.name ∈ excl
    · rw [if_pos h1] at hf
      exact absurd hf (by simp)
    · rw [if_neg h1] at hf
      by_cases h2 : (8 : ℚ)/10 < m.successRate ∧
          scheduler.fiveMinutes < now - m.lastErrorTime
      · rw [if_pos h2] at hf
        obtain rfl : m.name = d := by simpa using hf
        exact ⟨m, hm, rfl, h1, h2.1, h2.2⟩
      · rw [if_neg h2] at hf
        exact absurd hf (by simp)
  · rintro ⟨m, hm, rfl, h1, h2, h3⟩
    exact ⟨m, hm, by rw [if_neg h1, if_pos ⟨h2, h3⟩]⟩

/-- C7: every driver returned by `SelectDriversForStripe` — for every RAID
level, stripe index and exclusion list — carries a metric entry with success
rate above 0.8 and last error more than 5 minutes ago, and is not excluded;
and membership in `getAvailableDrivers` (eligibility) holds exactly when
those three conditions do. -/
theorem c7_selected_drivers_are_eligible (metrics : List scheduler.DriverMetrics)
    (excl : List String) (now : Nat) :
    (∀ raidLevel stripeIndex d,
      d ∈ scheduler.SelectDriversForStripe metrics raidLevel stripeIndex excl now →
        ∃ m ∈ metrics, m.name = d ∧ d ∉ excl ∧
          (8 : ℚ)/10 < m.successRate ∧
          scheduler.fiveMinutes < now - m.lastErrorTime) ∧
    (∀ d, d ∈ scheduler.getAvailableDrivers metrics excl now ↔
      ∃ m ∈ metrics, m.name = d ∧ d ∉ excl ∧
        (8 : ℚ)/10 < m.successRate ∧
        scheduler.fiveMinutes < now - m.lastErrorTime) :=
  ⟨fun raidLevel stripeIndex d h =>
    mem_getAvailableDrivers_iff.mp
      (select_subset_available metrics raidLevel stripeIndex excl now d h),
   fun _ => mem_getAvailableDrivers_iff⟩

theorem swapAt_last_getD (l : List String) (p : Nat) (hp : p < l.length) :
    (if p < l.length - 1 then swapAt l p (l.length - 1) else l).length = l.length ∧
    (if p < l.length - 1 then swapAt l p (l.length - 1) else l).getD
      ((if p < l.length - 1 then swapAt l p (l.length - 1) else l).length - 1) "" =
      l.getD p "" := by
  split
  case isTrue h =>
    refine ⟨length_swapAt l p (l.length - 1), ?_⟩
    rw [length_swapAt]
    exact getD_swapAt_j l (by omega)
  case isFalse h =>
    refine ⟨rfl, ?_⟩
    have hpe : p = l.length - 1 := by omega
    rw [hpe]

/-- C8 (amended): for RAID 5 with at least 3 eligible drivers,
`SelectDriversForStripe` returns `min 5 n` drivers (`n` the number of
eligible drivers), and the parity carrier — the driver at position
`stripeIndex mod len(selected)` of the score-sorted selection — sits at the
LAST position of the returned list. -/
theorem c8_amended_raid5_selection_swaps_parity_to_last
    (metrics : List scheduler.DriverMetrics) (excl : List String)
    (now stripeIndex : Nat)
    (h3 : 3 ≤ (scheduler.getAvailableDrivers metrics excl now).length) :
    (scheduler.SelectDriversForStripe metrics 5 stripeIndex excl now).length =
      min 5 (scheduler.getAvailableDrivers metrics excl now).length ∧
    (scheduler.SelectDriversForStripe metrics 5 stripeIndex excl now).getD
        ((scheduler.SelectDriversForStripe metrics 5 stripeIndex excl now).length - 1)
        "" =
      scheduler.raid5ParityCarrier metrics excl now stripeIndex := by
  have hsel : scheduler.SelectDriversForStripe metrics 5 stripeIndex excl now =
      scheduler.selectForRAID5 metrics
        (scheduler.getAvailableDrivers metrics excl now) stripeIndex := rfl
  set av := scheduler.getAvailableDrivers metrics excl now with hav
  set S := scheduler.sortDriversByScore metrics av with hS
  set T := S.take (min 5 S.length) with hT
  have hSlen : S.length = av.length := length_sortBy _ _
  have hTlen : T.length = min 5 av.length := by
    rw [hT, List.length_take, hSlen]
    omega
  have he : scheduler.selectForRAID5 metrics av stripeIndex =
      (if stripeIndex % T.length < T.length - 1
       then swapAt T (stripeIndex % T.length) (T.length - 1) else T) := by
    unfold scheduler.selectForRAID5
    rw [if_neg (by omega)]
  have hp : stripeIndex % T.length < T.length :=
    Nat.mod_lt _ (by omega)
  obtain ⟨hl, hg⟩ := swapAt_last_getD T (stripeIndex % T.length) hp
  rw [hsel, he]
  refine ⟨by rw [hl, hTlen], ?_⟩
  rw [hg]
  rfl

/-- C8 (counterexample): five eligible drivers with pairwise distinct
composite scores (score-sorted order a,b,c,d,e) and stripe index 3: the
claim puts the parity carrier at position 3 mod 5 = 3 of the returned list,
but the code swaps the carrier (d, the score-sorted driver at position 3) to
the end and returns a,b,c,e,d — position 3 holds e, not the carrier; and
with only 2 eligible drivers the function returns 2 drivers, not 3 to 5. -/
theorem c8_counterexample_parity_not_at_stripe_mod_position :
    scheduler.SelectDriversForStripe ml5 5 3 [] tNow = ["a", "b", "c", "e", "d"] ∧
    scheduler.raid5ParityCarrier ml5 [] tNow 3 = "d" ∧
    (scheduler.SelectDriversForStripe ml5 5 3 [] tNow).getD 3 "" ≠
      scheduler.raid5ParityCarrier ml5 [] tNow 3 ∧
    (scheduler.SelectDriversForStripe ml2 5 0 [] tNow).length = 2 := by
  refine ⟨?_, ?_, ?_, ?_⟩ <;> decide

/-- C8 (witness): the amended selection theorem applied to the five
concrete drivers of spec §8 scenario 6 at stripe index 3. -/
theorem c8_amended_witness :
    3 ≤ (scheduler.getAvailableDrivers ml5 [] tNow).length ∧
    (scheduler.SelectDriversForStripe ml5 5 3 [] tNow).length =
      min 5 (scheduler.getAvailableDrivers ml5 [] tNow).length ∧
    (scheduler.SelectDriversForStripe ml5 5 3 [] tNow).getD
        ((scheduler.SelectDriversForStripe ml5 5 3 [] tNow).length - 1) "" =
      scheduler.raid5ParityCarrier ml5 [] tNow 3 :=
  ⟨by decide,
   (c8_amended_raid5_selection_swaps_parity_to_last ml5 [] tNow 3 (by decide)).1,
   (c8_amended_raid5_selection_swaps_parity_to_last ml5 [] tNow 3 (by decide)).2⟩

/-- C9 (counterexample): a decoded record with non-dense strip indices
(0 and 2) in the store: `GetFileMetadata` returns it successfully and caches
it — it is not rejected as Corrupt, although it violates the §3 invariants
the claim says are validated. -/
theorem c9_counterexample_invalid_record_returned_ok :
    metadata.GetFileMetadata [] storeBad "f1" = .ok (fmBad, [("f1", fmBad)]) ∧
    metadata.validMetadataStructure fmBad = false :=
  ⟨rfl, rfl⟩

/-- C9 (amended): `GetFileMetadata` returns the cached record on a cache
hit; on a miss it loads from the store — failing NotFound when no record
exists and with a parse error when decoding fails — and otherwise caches and
returns the decoded record as-is, with no invariant validation and no
Corrupt failure. -/
theorem c9_amended_get_file_metadata_behavior (cache : metadata.MetaCache)
    (store : metadata.MetaStore) (fileID : String) :
    (∀ e, cache.find? (fun e => e.1 == fileID) = some e →
      metadata.GetFileMetadata cache store fileID = .ok (e.2, cache)) ∧
    (cache.find? (fun e => e.1 == fileID) = none →
      (store fileID = none →
        metadata.GetFileMetadata cache store fileID = .error (.notFound fileID)) ∧
      (∀ msg, store fileID = some (.error msg) →
        metadata.GetFileMetadata cache store fileID = .error (.parseFailed msg)) ∧
      (∀ fm, store fileID = some (.ok fm) →
        metadata.GetFileMetadata cache store fileID = .ok (fm, (fileID, fm) :: cache))) := by
  refine ⟨fun e he => ?_, fun hn => ⟨fun hs => ?_, fun msg hs => ?_, fun fm hs => ?_⟩⟩
  · unfold metadata.GetFileMetadata
    simp only [he]
  · unfold metadata.GetFileMetadata
    simp only [hn, hs]
  · unfold metadata.GetFileMetadata
    simp only [hn, hs]
  · unfold metadata.GetFileMetadata
    simp only [hn, hs]

/-- C10: block placement is NOT deterministic: `selectDriverForStrip` and
`selectDriverByIndex` rebuild the driver-name list by ranging over the Go
`drivers` map on every call, and Go's map iteration order is unspecified
(randomized per iteration).  For the same controller — the same two-driver
set, witnessed by the permutation — and the same indices, the two possible
iteration orders return different drivers, so a read may look for a block on
a different driver than the write stored it on. -/
theorem c10_driver_selection_depends_on_map_iteration_order :
    ["a", "b"].Perm ["b", "a"] ∧
    raid.selectDriverForStrip ["a", "b"] 2 0 0 = "a" ∧
    raid.selectDriverForStrip ["b", "a"] 2 0 0 = "b" ∧
    raid.selectDriverByIndex ["a", "b"] 0 = "a" ∧
    raid.selectDriverByIndex ["b", "a"] 0 = "b" ∧
    ("a" : String) ≠ "b" :=
  ⟨List.Perm.swap "b" "a" [], rfl, rfl, rfl, rfl, by decide⟩

end PanMatrix
